import Mathlib

/-!
Verification of the chombo-discharge driver (regrid-and-checkpoint
orchestration engine) against its natural-language specification.

The definitions below are a shallow embedding of the C++ source in
`Source/AmrMesh/CD_EBAMRData.H` (which carries the `driver.cpp` /
`geo_coarsener.cpp` implementations).  `Real` values are modelled as
exact rationals, machine `int` as `Int`, index sets as lists of
integer vectors with membership semantics, and I/O as explicit data
records.  Stateful pipelines are modelled as functions that return an
event trace alongside the new state.
-/

namespace ChomboDischarge

/-- C++ truncated integer remainder, the semantics of the `%` operator on
`int` operands (truncation toward zero). -/
def cppMod (a b : Int) : Int := Int.tmod a b

/-- C++ logical negation applied to a floating-point value: `!x` is `true`
exactly when `x == 0`. -/
def cppNot (x : ℚ) : Bool := x == 0

/-- Chombo's `Abs` on a real value. -/
def chAbs (x : ℚ) : ℚ := if x < 0 then -x else x

/-- Implicit C++ conversion of a `bool` to a floating-point value, as happens
when a `bool` is compared against a `double` with `==`. -/
def cppBoolToReal (b : Bool) : ℚ := if b then 1 else 0

/-- A cell index in the (two-dimensional model of the) structured index
space; Chombo calls these `IntVect`. -/
abbrev IntVect := Int × Int

/-- An index set (Chombo `IntVectSet` / `DenseIntVectSet`), modelled as a
list with membership semantics. -/
abbrev IVSet := List IntVect

/-- Membership in an index set. -/
def ivMem (iv : IntVect) (s : IVSet) : Bool := s.contains iv

/-- The Chebyshev ball of radius `r` around one cell: all cells whose
per-coordinate distance from `iv` is at most `r`. -/
def growIV (r : Nat) (iv : IntVect) : IVSet :=
  (List.range (2 * r + 1)).flatMap (fun i =>
    (List.range (2 * r + 1)).map (fun j =>
      (iv.1 - (r : Int) + (i : Int), iv.2 - (r : Int) + (j : Int))))

/-- `IntVectSet::grow`: dilate an index set by radius `r` in index space. -/
def grow (s : IVSet) (r : Nat) : IVSet := s.flatMap (growIV r)

/-- Whether a cell lies inside the closed index box `[lo, hi]`. -/
def inBox (iv : IntVect) (lo hi : IntVect) : Bool :=
  lo.1 ≤ iv.1 && iv.1 ≤ hi.1 && lo.2 ≤ iv.2 && iv.2 ≤ hi.2

/-- A Chombo `Box`: a rectangular index region given by its low and high
corners.  Only its identity matters to the driver, which moves box lists
in and out of checkpoint files unchanged. -/
structure Box where
  lo : IntVect
  hi : IntVect
deriving DecidableEq, Repr

/-! ## Checkpoint codec

Shallow embedding of `driver::write_checkpoint_file` and
`driver::read_checkpoint_file`.  The HDF5 header and per-level groups are
modelled as an explicit `Checkpoint` record; HDF5 round-trips scalars and
box lists exactly, so the record holds the written values themselves. -/

/-- The driver state that the checkpoint codec touches: `m_time`, `m_dt`,
`m_step`, the finest AMR level and the per-level grids (box lists) held by
`amr_mesh`. -/
structure SimState where
  time : ℚ
  dt : ℚ
  step : Int
  finestLevel : Nat
  grids : List (List Box)
deriving DecidableEq, Repr

/-- The configuration the checkpoint codec reads: the coarsest cell spacing
`m_amr->get_dx()[0]` and the maximum checkpoint depth `m_max_chk_depth`
(negative means all levels). -/
structure Config where
  coarsestDx : ℚ
  maxChkDepth : Int
deriving DecidableEq, Repr

/-- The persisted checkpoint record: header scalars
`{coarsest_dx, time, dt, step, finest_level}` plus the per-level box lists
that were actually written (levels `0 .. finest_chk_level`). -/
structure Checkpoint where
  coarsestDx : ℚ
  time : ℚ
  dt : ℚ
  step : Int
  finestLevel : Nat
  levels : List (List Box)
deriving DecidableEq, Repr

/-- The finest level written to a checkpoint file:
`Min(m_max_chk_depth, finest_level)`, overridden to `finest_level` when
`m_max_chk_depth < 0`. -/
def finestChkLevel (maxChkDepth : Int) (finestLevel : Nat) : Nat :=
  if maxChkDepth < 0 then finestLevel else min maxChkDepth.toNat finestLevel

/-- `driver::write_checkpoint_file`: build the scalar header from the
current state and write the box list of every level from `0` up to
`finestChkLevel`. -/
def write_checkpoint_file (cfg : Config) (s : SimState) : Checkpoint :=
  { coarsestDx := cfg.coarsestDx
    time := s.time
    dt := s.dt
    step := s.step
    finestLevel := s.finestLevel
    levels := (List.range (finestChkLevel cfg.maxChkDepth s.finestLevel + 1)).map
      (fun lvl => s.grids.getD lvl []) }

/-- The restart resolution guard exactly as written in
`driver::read_checkpoint_file`:
`if(!coarsest_dx == m_amr->get_dx()[0]) MayDay::Abort(...)`.
C++ evaluates `!coarsest_dx` first (a `bool`), then promotes it to a
floating-point `0` or `1` for the `==` comparison. -/
def restartGuardAborts (headerDx configuredDx : ℚ) : Bool :=
  cppBoolToReal (cppNot headerDx) == configuredDx

/-- `driver::read_checkpoint_file`: read the header scalars, run the
resolution guard, then read every level's box list (aborting with
"file has no grids" if a level of the recorded hierarchy is missing from
the file) and adopt the stored topology and scalars. -/
def read_checkpoint_file (cfg : Config) (chk : Checkpoint) : Except String SimState :=
  if restartGuardAborts chk.coarsestDx cfg.coarsestDx then
    Except.error "driver::read_checkpoint_file - coarsest_dx != dx[0], did you change the base level resolution?!?"
  else if chk.finestLevel + 1 ≤ chk.levels.length then
    Except.ok
      { time := chk.time
        dt := chk.dt
        step := chk.step
        finestLevel := chk.finestLevel
        grids := chk.levels.take (chk.finestLevel + 1) }
  else
    Except.error "driver::read_checkpoint_file - file has no grids"

/-! ## Tagged-cell mask encoding

Shallow embedding of the per-cell encode/decode performed by
`driver::write_checkpoint_level` and `driver::read_checkpoint_level`. -/

/-- `driver::write_checkpoint_level` encodes a tagged cell as field value
`1.0` and an untagged cell as `0.0`. -/
def writeTagToField (tagged : Bool) : ℚ := if tagged then 1 else 0

/-- `driver::read_checkpoint_level` reconstructs a cell as tagged exactly
when the stored field value satisfies `scratch_fab(iv, 0) > 0.9999`. -/
def readTagFromField (v : ℚ) : Bool := v > 9999 / 10000

/-! ## Tag aggregation

Shallow embedding of `driver::tag_cells`, `driver::get_finest_tag_level`,
`driver::get_geom_tags` and the `geo_coarsener` override mask. -/

/-- The inputs `driver::tag_cells` consumes: the current finest level, the
maximum AMR depth, the coarsening policy flag `m_allow_coarsen`, the cell
tagger's buffer radius, the cell tagger's per-level tag sets (the contents
of `m_tags` after `cell_tagger::tag_cells`), the geometric tags
`m_geom_tags`, and the `changed` flag returned by the cell tagger. -/
structure TagInputs where
  finestLevel : Nat
  maxAmrDepth : Nat
  allowCoarsen : Bool
  buffer : Nat
  cellTags : List IVSet
  geomTags : List IVSet
  gotNewTags : Bool
deriving DecidableEq, Repr

/-- `driver::get_finest_tag_level`: the maximum level holding any cell-tagger
tag, starting from `-1`; the MPI maximum-reduction is the identity in the
single-process model. -/
def get_finest_tag_level (cellTags : List IVSet) : Int :=
  (List.range cellTags.length).foldl
    (fun acc lvl => if (cellTags.getD lvl []).isEmpty then acc else max acc (lvl : Int))
    (-1)

/-- `driver::tag_cells`: per level, gather the cell tagger's tags and grow
them by the tagger's buffer radius; then fuse the geometric tags, on levels
up to the finest tagged level when `m_allow_coarsen` is set, and otherwise
on all levels strictly below the maximum AMR depth.  No coarsening override
is consulted here.  Set union is list append (membership semantics). -/
def tag_cells (ti : TagInputs) : List IVSet :=
  (List.range (ti.finestLevel + 1)).map (fun lvl =>
    let base := grow (ti.cellTags.getD lvl []) ti.buffer
    if ti.allowCoarsen then
      if (lvl : Int) ≤ get_finest_tag_level ti.cellTags then
        base ++ ti.geomTags.getD lvl []
      else
        base
    else
      if lvl < ti.maxAmrDepth then
        base ++ ti.geomTags.getD lvl []
      else
        base)

/-- A `geo_coarsener` override: a spatial box (in index space in this model)
plus the finest level allowed inside it (`boxN_lo`, `boxN_hi`, `boxN_lvl`
in the input script). -/
structure CoarsenOverride where
  lo : IntVect
  hi : IntVect
  cap : Int
deriving DecidableEq, Repr

/-- Modelled from the spec: the body of `geo_coarsener::coarsen_tags` is not
part of the available sources (only its declaration and its call site in
`driver::get_geom_tags` are); per the spec it clears, on every level above
an override's level cap, the tag bits inside the override's box. -/
def coarsen_tags (ovs : List CoarsenOverride) (tags : List IVSet) : List IVSet :=
  (List.range tags.length).map (fun lvl =>
    (tags.getD lvl []).filter (fun iv =>
      !(ovs.any (fun ov => inBox iv ov.lo ov.hi && ov.cap < (lvl : Int)))))

/-- `driver::get_geom_tags`: build the geometry-derived tags for levels
`0 .. maxdepth-1`, apply `geo_coarsener::coarsen_tags` once, then grow every
level's tags by `Max(1, m_amr->get_irreg_growth())`. -/
def get_geom_tags (maxDepth irregGrowth : Nat) (ovs : List CoarsenOverride)
    (raw : List IVSet) : List IVSet :=
  (coarsen_tags ovs (raw.take maxDepth)).map (fun s => grow s (max 1 irregGrowth))

/-- The property claimed of the tag set that reaches the mesh rebuild: for
every override, no tag on a level above the override's cap lies inside the
override's box. -/
def overridesRespected (ovs : List CoarsenOverride) (tags : List IVSet) : Prop :=
  ∀ ov ∈ ovs, ∀ lvl < tags.length, ov.cap < (lvl : Int) →
    ∀ iv : IntVect, ivMem iv (tags.getD lvl []) = true → inBox iv ov.lo ov.hi = false

/-! ## Regrid pipeline

Shallow embedding of `driver::regrid`, `driver::deallocate_internals` and
`driver::regrid_internals` as an event trace plus explicit allocation
state. -/

/-- Allocation state the regrid pipeline manipulates: whether the driver's
own internal storage (`m_tags`) and the time stepper's internal storage are
currently allocated. -/
structure RegridState where
  driverTagsAllocated : Bool
  stepperAllocated : Bool
deriving DecidableEq, Repr

/-- The observable actions `driver::regrid` performs, in program order. -/
inductive RegridEvent where
  | stepperInitialData
  | cacheTags
  | stepperCache
  | driverDeallocateCall
  | stepperDeallocate
  | amrRegrid (tags : List IVSet) (lmin lmax : Nat)
  | allocateInternals
  | restoreTags
  | stepperRegrid (lmin oldFinest newFinest : Nat)
  | cellTaggerRegrid
  | writeFile
deriving DecidableEq, Repr

/-- `driver::deallocate_internals`: the function body is commented out in
the source (`//  m_amr->deallocate(m_tags);`), so the call frees nothing
and the state is returned unchanged. -/
def deallocate_internals (s : RegridState) : RegridState := s

/-- `time_stepper::deallocate` as seen from the driver: the stepper's
internal storage is released. -/
def stepper_deallocate (s : RegridState) : RegridState :=
  { s with stepperAllocated := false }

/-- `driver::allocate_internals` as seen from the allocation state: the
driver's internal storage exists afterwards. -/
def allocate_internals (s : RegridState) : RegridState :=
  { s with driverTagsAllocated := true }

/-- The allocation state at the moment `m_amr->regrid` is entered inside
`driver::regrid`: after caching tags, caching the stepper, calling
`deallocate_internals` and deallocating the stepper. -/
def stateAtMeshRebuild (s : RegridState) : RegridState :=
  stepper_deallocate (deallocate_internals s)

/-- `driver::regrid(a_lmin, a_lmax, a_use_initial_data)`: run
`driver::tag_cells`; when the cell tagger reports no new tags, optionally
reseed initial data and return.  Otherwise cache the tag bitmaps, cache the
stepper, call `deallocate_internals`, deallocate the stepper, call the
collective `m_amr->regrid` on the tag set, reallocate and restore via
`regrid_internals`, regrid the stepper, optionally reseed, and regrid the
cell tagger — in that order. -/
def driver_regrid (ti : TagInputs) (useInitialData : Bool)
    (lmin lmax oldFinest newFinest : Nat) (s : RegridState) :
    List RegridEvent × RegridState :=
  if !ti.gotNewTags then
    ((if useInitialData then [RegridEvent.stepperInitialData] else []), s)
  else
    ([RegridEvent.cacheTags,
      RegridEvent.stepperCache,
      RegridEvent.driverDeallocateCall,
      RegridEvent.stepperDeallocate,
      RegridEvent.amrRegrid (tag_cells ti) lmin lmax,
      RegridEvent.allocateInternals,
      RegridEvent.restoreTags,
      RegridEvent.stepperRegrid lmin oldFinest newFinest]
     ++ (if useInitialData then [RegridEvent.stepperInitialData] else [])
     ++ [RegridEvent.cellTaggerRegrid],
     allocate_internals (stateAtMeshRebuild s))

/-! ## Time loop

Shallow embedding of the body of the `while` loop in `driver::run`.  The
time stepper is an oracle supplying the value `compute_dt` writes into
`m_dt`, the `need_to_regrid` flag, and the actual time step returned by
`advance`. -/

/-- The configuration `driver::run` reads: end time, maximum step count,
the very first `dt` of the run (`init_dt`), the regrid interval and policy,
the depth limits consulted by `can_regrid`, the refinement ratios, the
plot/checkpoint cadences and the memory-report flag. -/
structure LoopCfg where
  endTime : ℚ
  maxSteps : Int
  initDt : ℚ
  regridInterval : Int
  recursiveRegrid : Bool
  maxSimDepth : Int
  maxAmrDepth : Int
  refRat : List Int
  plotInterval : Int
  chkInterval : Int
  writeMemory : Bool
deriving DecidableEq, Repr

/-- The mutable state of one `driver::run` loop iteration: `m_time`,
`m_dt`, `m_step`, the local flags `last_step` and `first_step`, and the
finest AMR level. -/
structure LoopState where
  time : ℚ
  dt : ℚ
  step : Int
  lastStep : Bool
  firstStep : Bool
  finestLevel : Nat
deriving DecidableEq, Repr

/-- The time stepper as an oracle for one iteration. -/
structure StepperOracle where
  computeDt : ℚ
  needToRegrid : Bool
  advance : ℚ → ℚ

/-- The observable actions of one loop iteration, in program order. -/
inductive Event where
  | regrid (lmin lmax : Nat)
  | writeMemoryUsage
  | writePlot
  | writeChk
  | advanceCall (dt : ℚ)
  | stallAbort
deriving DecidableEq, Repr

/-- `can_regrid = max_sim_depth > 0 && max_amr_depth > 0`. -/
def canRegrid (cfg : LoopCfg) : Bool :=
  cfg.maxSimDepth > 0 && cfg.maxAmrDepth > 0

/-- `check_step = m_step % m_regrid_interval == 0 && m_regrid_interval > 0`. -/
def checkStep (cfg : LoopCfg) (st : LoopState) : Bool :=
  cppMod st.step cfg.regridInterval == 0 && cfg.regridInterval > 0

/-- `check_timestepper = m_timestepper->need_to_regrid() && m_regrid_interval > 0`. -/
def checkTimestepper (cfg : LoopCfg) (ts : StepperOracle) : Bool :=
  ts.needToRegrid && cfg.regridInterval > 0

/-- The recursive-policy `lmin`: descend `lvl` from the finest level to 1,
setting `lmin = lvl` whenever `m_step % (iref * m_regrid_interval) == 0`
and multiplying `iref` by `ref_rat[lvl-1]` after each level. -/
def recursiveLmin (cfg : LoopCfg) (st : LoopState) : Nat :=
  (((List.range st.finestLevel).reverse.map (fun l => l + 1)).foldl
    (fun (p : Int × Nat) lvl =>
      (p.1 * cfg.refRat.getD (lvl - 1) 1,
       if cppMod st.step (p.1 * cfg.regridInterval) == 0 then lvl else p.2))
    ((1 : Int), 1)).2

/-- The level window `[lmin, lmax]` a triggered regrid covers:
`(1, finestLevel)` under the non-recursive policy, and the recursive
formula otherwise. -/
def regridWindow (cfg : LoopCfg) (st : LoopState) : Nat × Nat :=
  if !cfg.recursiveRegrid then (1, st.finestLevel)
  else (recursiveLmin cfg st, st.finestLevel)

/-- The regrid trigger of one loop iteration: a regrid over
`regridWindow` happens exactly when
`can_regrid && (check_step || check_timestepper)` holds and this is not
the first iteration. -/
def regridDecision (cfg : LoopCfg) (ts : StepperOracle) (st : LoopState) :
    Option (Nat × Nat) :=
  if canRegrid cfg && (checkStep cfg st || checkTimestepper cfg ts) && !st.firstStep
  then some (regridWindow cfg st)
  else none

/-- The regrid events emitted at the top of one loop iteration. -/
def regridEventList (cfg : LoopCfg) (ts : StepperOracle) (st : LoopState) :
    List Event :=
  match regridDecision cfg ts st with
  | some (lmin, lmax) => [Event.regrid lmin lmax]
  | none => []

/-- The value held by `m_dt` after the conditional `compute_dt` call of the
iteration: recomputed by the stepper on every iteration but the first. -/
def effDt (ts : StepperOracle) (st : LoopState) : ℚ :=
  if st.firstStep then st.dt else ts.computeDt

/-- The outcome of one loop iteration: either the job aborted
(`MayDay::Abort` on a collapsed time step), or the state advanced. -/
inductive IterOutcome where
  | aborted (events : List Event) (st : LoopState)
  | stepped (events : List Event) (st : LoopState)
deriving Repr

/-- One full iteration of the `while` loop in `driver::run`: the regrid
trigger, the conditional `compute_dt`, the time-step collapse check (which
writes a final plot file and a final checkpoint file and aborts), the
end-time clamp, the `advance` call, the time/step bookkeeping, the end-time
tolerance check, and the plot/checkpoint cadence. -/
def runIteration (cfg : LoopCfg) (ts : StepperOracle) (st : LoopState) :
    IterOutcome :=
  let evs := regridEventList cfg ts st
  let dt1 := effDt ts st
  if dt1 < 1 / 100000 * cfg.initDt then
    IterOutcome.aborted
      (evs ++ (if cfg.writeMemory then [Event.writeMemoryUsage] else [])
           ++ [Event.writePlot, Event.writeChk, Event.stallAbort])
      { st with dt := dt1, step := st.step + 1, firstStep := false }
  else
    let clamp := st.time + dt1 > cfg.endTime
    let dt2 := if clamp then cfg.endTime - st.time else dt1
    let last2 := if clamp then true else st.lastStep
    let actualDt := ts.advance dt2
    let newTime := st.time + actualDt
    let newStep := st.step + 1
    let last3 := if chAbs (newTime - cfg.endTime) < actualDt * (1 / 100000) then true else last2
    let plotTrig := (cppMod newStep cfg.plotInterval == 0 && cfg.plotInterval > 0)
                 || (last3 && cfg.plotInterval > 0)
    let chkTrig := (cppMod newStep cfg.chkInterval == 0 && cfg.chkInterval > 0)
                || (last3 && cfg.chkInterval > 0)
    IterOutcome.stepped
      (evs ++ [Event.advanceCall dt2]
           ++ (if plotTrig then
                (if cfg.writeMemory then [Event.writeMemoryUsage] else [])
                  ++ [Event.writePlot]
               else [])
           ++ (if chkTrig then [Event.writeChk] else []))
      { st with time := newTime, dt := actualDt, step := newStep,
                lastStep := last3, firstStep := false }

/-- The events of an iteration outcome. -/
def iterEvents : IterOutcome → List Event
  | IterOutcome.aborted evs _ => evs
  | IterOutcome.stepped evs _ => evs

/-- The state of an iteration outcome. -/
def iterState : IterOutcome → LoopState
  | IterOutcome.aborted _ st => st
  | IterOutcome.stepped _ st => st

/-- Whether the iteration ended in `MayDay::Abort`. -/
def isAborted : IterOutcome → Bool
  | IterOutcome.aborted _ _ => true
  | IterOutcome.stepped _ _ => false

/-- The `while` condition of the main loop:
`m_time < a_end_time && m_step < a_max_steps && !last_step`. -/
def loopGuard (cfg : LoopCfg) (st : LoopState) : Bool :=
  st.time < cfg.endTime && st.step < cfg.maxSteps && !st.lastStep

/-! ## Helper lemmas -/

/-- The restart guard never fires when the header spacing equals the
configured spacing, for any value of that spacing. -/
lemma restartGuard_self (x : ℚ) : restartGuardAborts x x = false := by
  simp only [restartGuardAborts, cppBoolToReal, cppNot]
  by_cases h : x = 0
  · subst h
    decide
  · have hb : (x == 0) = false := beq_eq_false_iff_ne.mpr h
    simp only [hb, Bool.false_eq_true, if_false, beq_eq_false_iff_ne]
    exact fun hx => h hx.symm

/-- When the configured checkpoint depth does not truncate the hierarchy,
the finest checkpointed level is the finest level itself. -/
lemma finestChkLevel_eq {maxChkDepth : Int} {f : Nat}
    (h : maxChkDepth < 0 ∨ (f : Int) ≤ maxChkDepth) :
    finestChkLevel maxChkDepth f = f := by
  unfold finestChkLevel
  by_cases hneg : maxChkDepth < 0
  · simp [hneg]
  · rcases h with h | h
    · exact absurd h hneg
    · have hf : f ≤ maxChkDepth.toNat := by
        omega
      simp [hneg, Nat.min_eq_right hf]

/-- Reading every index of a list back with `getD` reproduces the list. -/
lemma range_map_getD {α : Type} (l : List α) (d : α) :
    (List.range l.length).map (fun i => l.getD i d) = l := by
  induction l with
  | nil => rfl
  | cons a t ih =>
    rw [List.length_cons, List.range_succ_eq_map, List.map_cons, List.map_map]
    simp only [Function.comp_def, List.getD_cons_zero, List.getD_cons_succ]
    exact congrArg (List.cons a) ih

/-! ## Claim C1 -/

/-- The concrete restart configuration for C1: the currently configured
coarsest spacing is `1`. -/
def c1Config : Config := { coarsestDx := 1, maxChkDepth := -1 }

/-- The concrete checkpoint for C1: its header stores coarsest spacing `2`,
different from the configured `1`. -/
def c1Header : Checkpoint :=
  { coarsestDx := 2, time := 3, dt := 1 / 2, step := 7, finestLevel := 1
    levels := [[{ lo := (0, 0), hi := (7, 7) }], [{ lo := (0, 0), hi := (15, 15) }]] }

/-- C1: the claim says a restart whose checkpoint header stores a coarsest
spacing different from the configured one must fail with a fatal
configuration error before any grid is built.  The code's guard is
`if(!coarsest_dx == m_amr->get_dx()[0])`, which compares the boolean
`!coarsest_dx` (promoted to `0` or `1`) against the configured spacing
instead of comparing the two spacings.  At header spacing `2` and
configured spacing `1` the guard does not fire and the restart proceeds to
adopt the stored box lists, contradicting the claim and the code's own
abort message `"coarsest_dx != dx[0]"`. -/
theorem restart_guard_misses_mismatch :
    c1Header.coarsestDx ≠ c1Config.coarsestDx ∧
    restartGuardAborts c1Header.coarsestDx c1Config.coarsestDx = false ∧
    read_checkpoint_file c1Config c1Header =
      Except.ok
        { time := 3, dt := 1 / 2, step := 7, finestLevel := 1
          grids := [[{ lo := (0, 0), hi := (7, 7) }], [{ lo := (0, 0), hi := (15, 15) }]] } := by
  refine ⟨by decide, by decide, ?_⟩
  rfl

/-! ## Claim C2 -/

/-- C2 (amended): writing a checkpoint and restarting from it reproduces
`{time, dt, step}` and every level's box list exactly, provided the
configured maximum checkpoint depth does not truncate the hierarchy
(`m_max_chk_depth < 0` or `≥ finest_level`); a truncating depth loses the
finer levels' box lists and the restart aborts instead. -/
theorem checkpoint_roundtrip (cfg : Config) (s : SimState)
    (hwf : s.grids.length = s.finestLevel + 1)
    (hdepth : cfg.maxChkDepth < 0 ∨ (s.finestLevel : Int) ≤ cfg.maxChkDepth) :
    read_checkpoint_file cfg (write_checkpoint_file cfg s) =
      Except.ok
        { time := s.time, dt := s.dt, step := s.step
          finestLevel := s.finestLevel, grids := s.grids } := by
  have hguard := restartGuard_self cfg.coarsestDx
  have hchk : finestChkLevel cfg.maxChkDepth s.finestLevel = s.finestLevel :=
    finestChkLevel_eq hdepth
  have hlevels :
      (List.range (finestChkLevel cfg.maxChkDepth s.finestLevel + 1)).map
        (fun lvl => s.grids.getD lvl []) = s.grids := by
    rw [hchk, ← hwf]
    exact range_map_getD s.grids []
  unfold read_checkpoint_file write_checkpoint_file
  simp only [hguard, hlevels, Bool.false_eq_true, if_false, hwf]
  rw [if_pos (by omega)]
  rw [← hwf]
  rw [List.take_length]

/-- The concrete C2 state: a two-level hierarchy. -/
def c2State : SimState :=
  { time := 1, dt := 2, step := 3, finestLevel := 1
    grids := [[{ lo := (0, 0), hi := (7, 7) }], [{ lo := (0, 0), hi := (15, 15) }]] }

/-- The concrete truncating configuration for the C2 counterexample:
`m_max_chk_depth = 0` on a hierarchy whose finest level is `1`. -/
def c2TruncCfg : Config := { coarsestDx := 1, maxChkDepth := 0 }

/-- The concrete non-truncating configuration for the C2 witness. -/
def c2FullCfg : Config := { coarsestDx := 1, maxChkDepth := -1 }

/-- C2 counterexample: with `m_max_chk_depth = 0` and finest level `1`,
the checkpoint written from `c2State` holds only level 0's box list, and
the restart aborts with "file has no grids" instead of reproducing the
state. -/
theorem checkpoint_roundtrip_truncated :
    read_checkpoint_file c2TruncCfg (write_checkpoint_file c2TruncCfg c2State) =
      Except.error "driver::read_checkpoint_file - file has no grids" := by
  rfl

/-- C2 witness: the amended round trip at a concrete two-level state with a
non-truncating checkpoint depth. -/
theorem checkpoint_roundtrip_witness :
    read_checkpoint_file c2FullCfg (write_checkpoint_file c2FullCfg c2State) =
      Except.ok
        { time := c2State.time, dt := c2State.dt, step := c2State.step
          finestLevel := c2State.finestLevel, grids := c2State.grids } :=
  checkpoint_roundtrip c2FullCfg c2State (by decide) (by decide)

/-! ## Claim C4 -/

/-- C4 counterexample: the stored value `0.5` is at the claimed midpoint
threshold, yet `driver::read_checkpoint_level` does not reconstruct the
cell as tagged, because its test is `> 0.9999`. -/
theorem tag_threshold_midpoint_cex :
    ((1 : ℚ) / 2 ≥ 1 / 2) ∧ readTagFromField (1 / 2) = false := by
  refine ⟨le_refl _, ?_⟩
  rw [readTagFromField, decide_eq_false_iff_not]
  norm_num

/-- C4 (amended): a cell is reconstructed as tagged exactly when its stored
field value exceeds `0.9999` (so values in `[0.5, 0.9999]` do not count as
tagged); the exact stored values `1.0` and `0.0` round-trip to the original
tag bit. -/
theorem tag_mask_threshold :
    (∀ b : Bool, readTagFromField (writeTagToField b) = b) ∧
    (∀ v : ℚ, readTagFromField v = true ↔ v > 9999 / 10000) := by
  constructor
  · intro b
    cases b <;> norm_num [readTagFromField, writeTagToField]
  · intro v
    simp [readTagFromField]

/-! ## Claim C3 -/

/-- The regrid phase of an iteration emits no `advance` call. -/
lemma advanceCall_not_mem_regridEventList (cfg : LoopCfg) (ts : StepperOracle)
    (st : LoopState) (d : ℚ) :
    Event.advanceCall d ∉ regridEventList cfg ts st := by
  unfold regridEventList
  rcases regridDecision cfg ts st with _ | ⟨lmin, lmax⟩ <;> simp

/-- C3: on any iteration after the first, if the freshly computed `dt` is
below `1e-5` of the very first `dt` of the run, the loop increments the
step counter, writes a final plot file and then a final checkpoint file,
and aborts the whole job; `advance` is never called and the simulation time
is unchanged. -/
theorem stall_abort_flushes_and_aborts (cfg : LoopCfg) (ts : StepperOracle)
    (st : LoopState) (hfirst : st.firstStep = false)
    (hstall : ts.computeDt < 1 / 100000 * cfg.initDt) :
    runIteration cfg ts st =
      IterOutcome.aborted
        (regridEventList cfg ts st
          ++ (if cfg.writeMemory then [Event.writeMemoryUsage] else [])
          ++ [Event.writePlot, Event.writeChk, Event.stallAbort])
        { st with dt := ts.computeDt, step := st.step + 1, firstStep := false } ∧
    (∀ d : ℚ, Event.advanceCall d ∉ iterEvents (runIteration cfg ts st)) ∧
    (iterState (runIteration cfg ts st)).time = st.time := by
  have he : effDt ts st = ts.computeDt := by
    simp [effDt, hfirst]
  have hrun : runIteration cfg ts st =
      IterOutcome.aborted
        (regridEventList cfg ts st
          ++ (if cfg.writeMemory then [Event.writeMemoryUsage] else [])
          ++ [Event.writePlot, Event.writeChk, Event.stallAbort])
        { st with dt := ts.computeDt, step := st.step + 1, firstStep := false } := by
    unfold runIteration
    rw [he, if_pos hstall]
  refine ⟨hrun, ?_, ?_⟩
  · intro d
    rw [hrun]
    simp only [iterEvents, List.mem_append, List.mem_cons]
    rintro ((hmem | hmem) | hmem)
    · exact advanceCall_not_mem_regridEventList cfg ts st d hmem
    · rcases hwm : cfg.writeMemory with _ | _ <;> simp [hwm] at hmem
    · simp at hmem
  · rw [hrun]
    rfl

/-- The concrete C3 loop configuration: the first `dt` of the run is `1`. -/
def c3Cfg : LoopCfg :=
  { endTime := 10, maxSteps := 100, initDt := 1, regridInterval := 5
    recursiveRegrid := false, maxSimDepth := 2, maxAmrDepth := 2, refRat := [2, 2]
    plotInterval := 10, chkInterval := 10, writeMemory := false }

/-- The concrete C3 stepper: `compute_dt` produces `1e-6` of the first
`dt`. -/
def c3Ts : StepperOracle :=
  { computeDt := 1 / 1000000, needToRegrid := false, advance := fun d => d }

/-- The concrete C3 loop state: past the first iteration. -/
def c3St : LoopState :=
  { time := 2, dt := 1, step := 3, lastStep := false, firstStep := false, finestLevel := 2 }

/-- C3 witness: the stall abort at `dt = 1e-6 * initDt`. -/
theorem stall_abort_witness :
    c3St.firstStep = false ∧
    c3Ts.computeDt < 1 / 100000 * c3Cfg.initDt ∧
    isAborted (runIteration c3Cfg c3Ts c3St) = true ∧
    (iterState (runIteration c3Cfg c3Ts c3St)).time = c3St.time := by
  have h := stall_abort_flushes_and_aborts c3Cfg c3Ts c3St rfl
    (by norm_num [c3Ts, c3Cfg])
  refine ⟨rfl, by norm_num [c3Ts, c3Cfg], ?_, h.2.2⟩
  rw [h.1]
  rfl

/-! ## Claim C5 -/

/-- C5: under the non-recursive policy, with the depth guards satisfied and
the stepper not requesting a regrid, the first iteration never regrids, and
a later iteration regrids over `[1, finestLevel]` exactly when the regrid
interval is positive and the step count is a multiple of it. -/
theorem nonrecursive_regrid_policy (cfg : LoopCfg) (ts : StepperOracle)
    (st : LoopState) (hrec : cfg.recursiveRegrid = false)
    (hcan : canRegrid cfg = true) (hts : ts.needToRegrid = false) :
    (st.firstStep = true → regridDecision cfg ts st = none) ∧
    (st.firstStep = false →
      (regridDecision cfg ts st = some (1, st.finestLevel) ↔
        cfg.regridInterval > 0 ∧ cppMod st.step cfg.regridInterval = 0)) := by
  constructor
  · intro h1
    simp [regridDecision, h1]
  · intro h1
    have hwin : regridWindow cfg st = (1, st.finestLevel) := by
      simp [regridWindow, hrec]
    by_cases hc : checkStep cfg st = true
    · have hdec : regridDecision cfg ts st = some (1, st.finestLevel) := by
        simp [regridDecision, hcan, hc, h1, hwin]
      rw [hdec]
      simp only [true_iff]
      have hc2 := hc
      unfold checkStep at hc2
      simp only [Bool.and_eq_true, beq_iff_eq, decide_eq_true_eq] at hc2
      exact ⟨hc2.2, hc2.1⟩
    · have hb : checkStep cfg st = false := by
        simpa using hc
      have hdec : regridDecision cfg ts st = none := by
        simp [regridDecision, hb, checkTimestepper, hts]
      rw [hdec]
      constructor
      · intro h
        exact absurd h (by simp)
      · intro h
        exfalso
        apply hc
        unfold checkStep
        simp only [Bool.and_eq_true, beq_iff_eq, decide_eq_true_eq]
        exact ⟨h.2, h.1⟩

/-- The concrete C5 configuration: `regrid_interval = 5`, non-recursive. -/
def c5Cfg : LoopCfg :=
  { endTime := 10, maxSteps := 100, initDt := 1, regridInterval := 5
    recursiveRegrid := false, maxSimDepth := 3, maxAmrDepth := 3, refRat := [2, 2, 2]
    plotInterval := 10, chkInterval := 10, writeMemory := false }

/-- The concrete C5 stepper: no stepper-forced regrid. -/
def c5Ts : StepperOracle :=
  { computeDt := 1, needToRegrid := false, advance := fun d => d }

/-- The concrete C5 state: step 10, finest level 2, past the first
iteration. -/
def c5St : LoopState :=
  { time := 2, dt := 1, step := 10, lastStep := false, firstStep := false, finestLevel := 2 }

/-- C5 witness: `regridInterval = 5`, `step = 10`, `finestLevel = 2`
triggers a regrid over `[1, 2]`. -/
theorem nonrecursive_regrid_policy_witness :
    regridDecision c5Cfg c5Ts c5St = some (1, 2) := by
  have h := nonrecursive_regrid_policy c5Cfg c5Ts c5St rfl rfl rfl
  have h2 := (h.2 rfl).mpr (by decide)
  simpa using h2

/-! ## Claim C6 -/

/-- The concrete C6 configuration for the counterexample: the regrid
interval is configured non-positive (regridding by interval disabled). -/
def c6Cfg : LoopCfg :=
  { endTime := 10, maxSteps := 100, initDt := 1, regridInterval := -1
    recursiveRegrid := false, maxSimDepth := 2, maxAmrDepth := 2, refRat := [2, 2]
    plotInterval := 10, chkInterval := 10, writeMemory := false }

/-- The concrete C6 stepper: `need_to_regrid()` reports `true`. -/
def c6Ts : StepperOracle :=
  { computeDt := 1, needToRegrid := true, advance := fun d => d }

/-- The concrete C6 state: past the first iteration. -/
def c6St : LoopState :=
  { time := 2, dt := 1, step := 7, lastStep := false, firstStep := false, finestLevel := 2 }

/-- C6 counterexample: with `need_to_regrid() == true` but a non-positive
regrid interval, no regrid is forced — `check_timestepper` is
`need_to_regrid() && m_regrid_interval > 0`, so the stepper's request is
not honoured "regardless of the configured regrid interval". -/
theorem forced_regrid_cex :
    c6Ts.needToRegrid = true ∧ c6St.firstStep = false ∧ canRegrid c6Cfg = true ∧
    regridDecision c6Cfg c6Ts c6St = none := by
  refine ⟨rfl, rfl, by decide, by decide⟩

/-- C6 (amended): a stepper-requested regrid is forced independently of the
step count's alignment with the interval, but only when the configured
regrid interval is positive (and the depth guards hold and this is not the
first iteration). -/
theorem forced_regrid_requires_positive_interval (cfg : LoopCfg)
    (ts : StepperOracle) (st : LoopState) (hpos : cfg.regridInterval > 0)
    (hcan : canRegrid cfg = true) (hts : ts.needToRegrid = true)
    (hfirst : st.firstStep = false) :
    regridDecision cfg ts st = some (regridWindow cfg st) := by
  have hct : checkTimestepper cfg ts = true := by
    unfold checkTimestepper
    simp [hts, hpos]
  simp [regridDecision, hcan, hct, hfirst]

/-- The concrete C6 witness configuration: interval 5, step 7 (not a
multiple), stepper requests a regrid. -/
def c6wCfg : LoopCfg :=
  { endTime := 10, maxSteps := 100, initDt := 1, regridInterval := 5
    recursiveRegrid := false, maxSimDepth := 2, maxAmrDepth := 2, refRat := [2, 2]
    plotInterval := 10, chkInterval := 10, writeMemory := false }

/-- C6 witness: at a step not aligned with the interval, the stepper's
request still forces a regrid over the computed window. -/
theorem forced_regrid_witness :
    cppMod c6St.step c6wCfg.regridInterval ≠ 0 ∧
    regridDecision c6wCfg c6Ts c6St = some (1, 2) := by
  constructor
  · decide
  · have h := forced_regrid_requires_positive_interval c6wCfg c6Ts c6St
      (by decide) rfl rfl rfl
    rw [h]
    decide

/-! ## Claim C7 -/

/-- C7: a regrid call with `a_use_initial_data = false` in which the cell
tagger reports no new tags returns with an empty effect trace — no
time-stepper cache/deallocate/regrid, no mesh rebuild, no file write — and
the allocation state unchanged. -/
theorem regrid_no_new_tags (ti : TagInputs) (lmin lmax oldF newF : Nat)
    (s : RegridState) (hchanged : ti.gotNewTags = false) :
    driver_regrid ti false lmin lmax oldF newF s = ([], s) := by
  simp [driver_regrid, hchanged]

/-- The concrete C7 tag inputs: the cell tagger reports `changed = false`. -/
def c7Ti : TagInputs :=
  { finestLevel := 1, maxAmrDepth := 3, allowCoarsen := false, buffer := 1
    cellTags := [[], []], geomTags := [[(0, 0)], []], gotNewTags := false }

/-- C7 witness: the no-op regrid at a concrete input. -/
theorem regrid_no_new_tags_witness :
    driver_regrid c7Ti false 1 1 1 1
        { driverTagsAllocated := true, stepperAllocated := true } =
      ([], { driverTagsAllocated := true, stepperAllocated := true }) :=
  regrid_no_new_tags c7Ti 1 1 1 1
    { driverTagsAllocated := true, stepperAllocated := true } rfl

/-! ## Claim C8 -/

/-- The concrete C8 tag inputs: the cell tagger reports new tags, so the
regrid proceeds past the tag-change check. -/
def c8Ti : TagInputs :=
  { finestLevel := 1, maxAmrDepth := 3, allowCoarsen := false, buffer := 0
    cellTags := [[], [(0, 0)]], geomTags := [[], []], gotNewTags := true }

/-- C8: the claim (and the code's own step list, "4. Free up m_tags for
safety") says the pipeline deallocates the driver's own internal storage
before the collective mesh rebuild.  The invoked stages do run in the
claimed order — cache tags, stepper cache, driver deallocate call, stepper
deallocate, mesh rebuild, reallocate and restore, stepper regrid, cell
tagger regrid — but `driver::deallocate_internals` is the identity (its
body `m_amr->deallocate(m_tags)` is commented out), so the driver's own
storage is still allocated when the mesh rebuild starts. -/
theorem regrid_pipeline_order_and_no_dealloc :
    (driver_regrid c8Ti false 1 2 1 2
        { driverTagsAllocated := true, stepperAllocated := true }).1 =
      [RegridEvent.cacheTags, RegridEvent.stepperCache,
       RegridEvent.driverDeallocateCall, RegridEvent.stepperDeallocate,
       RegridEvent.amrRegrid (tag_cells c8Ti) 1 2, RegridEvent.allocateInternals,
       RegridEvent.restoreTags, RegridEvent.stepperRegrid 1 1 2,
       RegridEvent.cellTaggerRegrid] ∧
    (stateAtMeshRebuild
        { driverTagsAllocated := true, stepperAllocated := true }).driverTagsAllocated
      = true ∧
    (∀ s : RegridState, deallocate_internals s = s) :=
  ⟨rfl, rfl, fun _ => rfl⟩

/-! ## Claim C9 -/

/-- The concrete C9 override: cap level `0` inside the index box
`[(-5,-5), (5,5)]`. -/
def c9Ov : CoarsenOverride := { lo := (-5, -5), hi := (5, 5), cap := 0 }

/-- The concrete C9 tag inputs: the cell tagger tags cell `(0,0)` on level
1, inside the override's box and above its cap. -/
def c9Ti : TagInputs :=
  { finestLevel := 1, maxAmrDepth := 3, allowCoarsen := false, buffer := 0
    cellTags := [[], [(0, 0)]], geomTags := [[], []], gotNewTags := true }

/-- C9 counterexample: `driver::tag_cells` applies no coarsening override,
so the tag set handed to `m_amr->regrid` keeps the cell-tagger tag `(0,0)`
on level 1 although it lies inside the override's box and above its level
cap of 0 — the claimed mask is violated by the tags handed to the mesh
rebuild. -/
theorem override_not_applied_in_tag_cells :
    (driver_regrid c9Ti false 1 1 1 1
        { driverTagsAllocated := true, stepperAllocated := true }).1.contains
      (RegridEvent.amrRegrid (tag_cells c9Ti) 1 1) = true ∧
    ivMem (0, 0) ((tag_cells c9Ti).getD 1 []) = true ∧
    inBox (0, 0) c9Ov.lo c9Ov.hi = true ∧
    c9Ov.cap < (1 : Int) ∧
    ¬ overridesRespected [c9Ov] (tag_cells c9Ti) := by
  refine ⟨by decide, by decide, by decide, by decide, ?_⟩
  intro h
  have hbox := h c9Ov (List.mem_singleton.mpr rfl) 1 (by decide) (by decide)
    (0, 0) (by decide)
  exact absurd hbox (by decide)

/-- C9 (amended): no coarsening override is applied during tag-set
computation; `driver::tag_cells` passes every buffered cell-tagger tag
through to its result unmasked, on every level of the current hierarchy
(overrides touch only the geometric tags, once, inside
`driver::get_geom_tags`). -/
theorem tagger_tags_never_masked (ti : TagInputs) (lvl : Nat)
    (hlvl : lvl ≤ ti.finestLevel) (iv : IntVect)
    (hmem : ivMem iv (grow (ti.cellTags.getD lvl []) ti.buffer) = true) :
    ivMem iv ((tag_cells ti).getD lvl []) = true := by
  have h1 : lvl < ti.finestLevel + 1 := Nat.lt_succ_of_le hlvl
  have hget : (tag_cells ti).getD lvl [] =
      (if ti.allowCoarsen then
        if (lvl : Int) ≤ get_finest_tag_level ti.cellTags then
          grow (ti.cellTags.getD lvl []) ti.buffer ++ ti.geomTags.getD lvl []
        else
          grow (ti.cellTags.getD lvl []) ti.buffer
      else
        if lvl < ti.maxAmrDepth then
          grow (ti.cellTags.getD lvl []) ti.buffer ++ ti.geomTags.getD lvl []
        else
          grow (ti.cellTags.getD lvl []) ti.buffer) := by
    unfold tag_cells
    rw [List.getD_eq_getElem?_getD, List.getElem?_map, List.getElem?_range h1]
    rfl
  rw [hget]
  have hmem2 : iv ∈ grow (ti.cellTags.getD lvl []) ti.buffer :=
    List.mem_of_elem_eq_true hmem
  have happ : ivMem iv
      (grow (ti.cellTags.getD lvl []) ti.buffer ++ ti.geomTags.getD lvl []) = true :=
    List.elem_eq_true_of_mem (List.mem_append_left _ hmem2)
  by_cases hac : ti.allowCoarsen = true
  · by_cases hft : (lvl : Int) ≤ get_finest_tag_level ti.cellTags
    · simp only [hac, if_true, hft]
      exact happ
    · simp only [hac, if_true, hft, if_false]
      exact hmem
  · have hac2 : ti.allowCoarsen = false := by
      simpa using hac
    by_cases hd : lvl < ti.maxAmrDepth
    · simp only [hac2, Bool.false_eq_true, if_false, hd, if_true]
      exact happ
    · simp only [hac2, Bool.false_eq_true, if_false, hd]
      exact hmem

/-- C9 witness: the buffered cell-tagger tag `(0,0)` on level 1 of the
counterexample input survives into the tag set. -/
theorem tagger_tags_never_masked_witness :
    ivMem (0, 0) ((tag_cells c9Ti).getD 1 []) = true :=
  tagger_tags_never_masked c9Ti 1 (by decide) (0, 0) (by decide)

/-! ## Claim C10 -/

/-- C10: after the advance, if the new time is within `1e-5` of the actual
`dt` of the end time, the iteration completes normally with `last_step`
set, and the `while` guard is false afterwards — the loop terminates even
when the time is still strictly below the end time and the step count below
the maximum. -/
theorem end_time_tolerance_sets_last_step (cfg : LoopCfg) (ts : StepperOracle)
    (st : LoopState)
    (hstall : ¬ (effDt ts st < 1 / 100000 * cfg.initDt))
    (hclamp : ¬ (st.time + effDt ts st > cfg.endTime))
    (htol : chAbs (st.time + ts.advance (effDt ts st) - cfg.endTime) <
            ts.advance (effDt ts st) * (1 / 100000)) :
    isAborted (runIteration cfg ts st) = false ∧
    (iterState (runIteration cfg ts st)).lastStep = true ∧
    loopGuard cfg (iterState (runIteration cfg ts st)) = false := by
  unfold runIteration
  rw [if_neg hstall]
  simp only [eq_false hclamp, if_false]
  simp only [eq_true htol, if_true]
  refine ⟨rfl, rfl, ?_⟩
  simp [loopGuard, iterState]

/-- The concrete C10 configuration: end time `1`. -/
def c10Cfg : LoopCfg :=
  { endTime := 1, maxSteps := 100, initDt := 1, regridInterval := 5
    recursiveRegrid := false, maxSimDepth := 2, maxAmrDepth := 2, refRat := [2, 2]
    plotInterval := 0, chkInterval := 0, writeMemory := false }

/-- The concrete C10 stepper: `compute_dt` yields `0.499999` and `advance`
uses the requested step unchanged. -/
def c10Ts : StepperOracle :=
  { computeDt := 499999 / 1000000, needToRegrid := false, advance := fun d => d }

/-- The concrete C10 state: time `0.5`, three steps done. -/
def c10St : LoopState :=
  { time := 1 / 2, dt := 1, step := 3, lastStep := false, firstStep := false
    finestLevel := 2 }

/-- C10 witness: the run ends with `time = 0.999999`, strictly below the
end time `1` and with the step count far below the maximum, with no abort —
termination through the end-time tolerance alone. -/
theorem end_time_tolerance_witness :
    (iterState (runIteration c10Cfg c10Ts c10St)).time < c10Cfg.endTime ∧
    (iterState (runIteration c10Cfg c10Ts c10St)).step < c10Cfg.maxSteps ∧
    isAborted (runIteration c10Cfg c10Ts c10St) = false ∧
    (iterState (runIteration c10Cfg c10Ts c10St)).lastStep = true ∧
    loopGuard c10Cfg (iterState (runIteration c10Cfg c10Ts c10St)) = false := by
  have h := end_time_tolerance_sets_last_step c10Cfg c10Ts c10St
    (by norm_num [effDt, c10Ts, c10Cfg, c10St])
    (by norm_num [effDt, c10Ts, c10Cfg, c10St])
    (by norm_num [effDt, chAbs, c10Ts, c10Cfg, c10St])
  refine ⟨?_, ?_, h.1, h.2.1, h.2.2⟩
  · have ht : (iterState (runIteration c10Cfg c10Ts c10St)).time = 999999 / 1000000 := by
      norm_num [runIteration, effDt, chAbs, regridEventList, regridDecision,
        canRegrid, checkStep, checkTimestepper, cppMod, iterState,
        c10Ts, c10Cfg, c10St]
    rw [ht]
    norm_num [c10Cfg]
  · have hs : (iterState (runIteration c10Cfg c10Ts c10St)).step = 4 := by
      norm_num [runIteration, effDt, chAbs, regridEventList, regridDecision,
        canRegrid, checkStep, checkTimestepper, cppMod, iterState,
        c10Ts, c10Cfg, c10St]
    rw [hs]
    norm_num [c10Cfg]

end ChomboDischarge
